import Mathlib

/-!
Verification of the tickety-tock data layer (src/data.ts) against its
natural-language specification.

The development shallowly embeds the TypeScript source: the duration
bucketizer and the format-strategy registry are embedded as pure functions
over `Int` (JavaScript `Math.floor(a / b)` on integers is floor division,
`Int.fdiv`), and the sqlite-backed `Data` class is embedded as explicit
state passing over a `DB` record whose fields model the five tables, the
AUTOINCREMENT counters, the connection's last-insert-rowid, and the stream
of `Math.random` draws.
-/

/-! ## Duration bucketizer and format registry -/

/-- `type Scale = {name: string, scale: number}` from the source.  The
bucketizer reuses this type for its output buckets, storing the bucket
count in the `scale` field, exactly as the source does. -/
structure Scale where
  name : String
  scale : Int
deriving DecidableEq

/-- The `units` table from the source.  Note the source stores the Hour
scale as `24 * 3600`, identical to Day. -/
def units : List Scale := [
  { name := "Year", scale := 365 * 24 * 3600 },
  { name := "Week", scale := 7 * 24 * 3600 },
  { name := "Day", scale := 24 * 3600 },
  { name := "Hour", scale := 24 * 3600 },
  { name := "Minute", scale := 60 }]

/-- `scaleToStr`: renders a bucket, pluralizing unless the count is 1. -/
def scaleToStr (s : Scale) : String :=
  toString s.scale ++ " " ++ s.name ++ (if s.scale = 1 then "" else "s")

/-- The loop body of `bucketTimes`: walks the unit table, pushing a bucket
once a quantity is positive or a bucket has already been pushed, and
subtracting `qty * scale` from the running difference. -/
def bucketGo : List Scale → Int → List Scale → List Scale
  | [], _, diffs => diffs
  | u :: us, diff, diffs =>
    let qty := Int.fdiv diff u.scale
    let diffs' := if 0 < qty ∨ diffs ≠ [] then diffs ++ [{ name := u.name, scale := qty }] else diffs
    bucketGo us (diff - qty * u.scale) diffs'

/-- `bucketTimes(diff)` from the source. -/
def bucketTimes (diff : Int) : List Scale :=
  bucketGo units diff []

/-- The seconds-per-unit constant the bucketizer uses for a named unit
(read off the `units` table; 0 for an unknown name, which never occurs in
a bucketizer output). -/
def unitSeconds (n : String) : Int :=
  ((units.find? (fun u => u.name = n)).map Scale.scale).getD 0

/-- Σ count_i × unitSeconds_i over a bucket list. -/
def sumBuckets (l : List Scale) : Int :=
  (l.map (fun b => b.scale * unitSeconds b.name)).sum

/-- `makeScaleFormatter(name)` from the source.  The closure filters the
unit table for the literal name `"Year"` — not for its `name` parameter —
so every single-scale formatter divides by the Year scale.  The lookup on
the fixed table always succeeds, so the source's throwing branch is dead;
it is modelled by the (unreachable) `getD 0` default. -/
def makeScaleFormatter (n : String) : Int → Int → String :=
  fun epoch now =>
    let scale := (((units.filter (fun v => v.name = "Year")).head?).map Scale.scale).getD 0
    scaleToStr { name := n, scale := Int.fdiv (now - epoch) scale }

/-- The format-strategy registry `formatters` from the source, in source
order: Show Epoch, One Unit, Two Units, Years, Weeks, Days, Hours,
Minutes. -/
def formatters : List (String × (Int → Int → String)) := [
  ("Show Epoch", fun e _ => toString e),
  ("One Unit", fun e n =>
    match (bucketTimes (n - e)).head? with
    | none => "-"
    | some b => scaleToStr b),
  ("Two Units", fun e n =>
    match bucketTimes (n - e) with
    | [] => "-"
    | [b1] => scaleToStr b1
    | b1 :: b2 :: _ => scaleToStr b1 ++ ", " ++ scaleToStr b2),
  ("Years", makeScaleFormatter "Year"),
  ("Weeks", makeScaleFormatter "Week"),
  ("Days", makeScaleFormatter "Day"),
  ("Hours", makeScaleFormatter "Hour"),
  ("Minutes", makeScaleFormatter "Minute")]

/-- `listFormatters()` from the source. -/
def listFormatters : List String :=
  formatters.map Prod.fst

/-- A formatter entry that can never be selected; only used as the
`getD` default below, where the source's `formatters[1]` is statically
present. -/
def deadFormatter : String × (Int → Int → String) :=
  ("", fun _ _ => "")

/-- `formatTime(epoch, format)` from the source.  The source reads the
wall clock (`Date.now() / 1000`) for `now`; it is passed explicitly here.
`formatters[format] ?? formatters[1]` yields the indexed entry when
`format` is a valid index and the entry at index 1 otherwise. -/
def formatTime (epoch : Int) (format : Int) (now : Int) : String :=
  let entry :=
    (if 0 ≤ format then formatters.get? format.toNat else none).getD
      (formatters.getD 1 deadFormatter)
  entry.2 epoch now

/-! ## Relational store

The sqlite-backed `Data` class is embedded as explicit state passing over
a `DB` record.  Tables are lists of row records in insertion order;
AUTOINCREMENT ids come from explicit counters.  The driver (node-sqlite3)
reports `lastID` from `sqlite3_last_insert_rowid()` after every `run`, so
an `INSERT OR IGNORE` that ignores its row still yields a defined
(numeric) `lastID` — the connection's previous one; this is modelled by
`RunResult.lastID` always being `some`.  The source never issues
`PRAGMA foreign_keys = ON`, so `ON DELETE CASCADE` clauses are inert at
runtime and deletes touch only their own table. -/

/-- A `Users` row. -/
structure UserRow where
  id : Nat
  email : String
  slug : String
deriving DecidableEq

/-- A `Timers` row (the columns the source selects via `timerFields`). -/
structure TimerRow where
  id : Nat
  epoch : Int
  title : String
  slug : String
  secret : String
  userid : Nat
  format : Int
  createdAt : Int
deriving DecidableEq

/-- A `Groups` row. -/
structure GroupRow where
  id : Nat
  title : String
  slug : String
  userid : Nat
  createdAt : Int
deriving DecidableEq

/-- A `TimerGroups` membership row. -/
structure TimerGroupRow where
  id : Nat
  groupid : Nat
  timerid : Nat
  userid : Nat
  createdAt : Int
deriving DecidableEq

/-- The materialized `Group` record returned by `getGroups`. -/
structure GroupOut where
  id : Nat
  title : String
  slug : String
  createdAt : Int
  timers : List TimerRow
deriving DecidableEq

/-- Database-connection state: the five tables, AUTOINCREMENT counters,
the connection's last-insert-rowid, and the `Math.random` draw stream
(`rng k` is the k-th sampled alphabet index; `% alphabet size` models the
range of `Math.floor(Math.random() * slugChars.length)`). -/
structure DB where
  slugs : List String
  users : List UserRow
  timers : List TimerRow
  groups : List GroupRow
  timerGroups : List TimerGroupRow
  nextSlugRowid : Nat
  nextUserId : Nat
  lastRowid : Nat
  rng : Nat → Nat
  randPos : Nat

/-- The result of `db.run` as surfaced by the sqlite wrapper. -/
structure RunResult where
  lastID : Option Nat
  changes : Nat

/-- The slug alphabet from the source, with easily mistakable characters
removed. -/
def slugChars : String :=
  "ABCDEFGHJKLMNPQRSTUVWXYZabcdefghijkmnopqrstuvwxyz23456789"

/-- One candidate slug: `length` successive draws from the alphabet. -/
def drawSlug (db : DB) (len : Nat) : String × DB :=
  let chars := (List.range len).map
    (fun i => slugChars.toList.getD (db.rng (db.randPos + i) % slugChars.toList.length) 'A')
  (String.mk chars, { db with randPos := db.randPos + len })

/-- `INSERT OR IGNORE INTO Slugs (slug) VALUES (?)`.  On a duplicate the
row is ignored (`changes = 0`) but the driver still reports the
connection's previous last-insert-rowid, so `lastID` is `some` either
way. -/
def dbRunInsertSlug (db : DB) (slug : String) : RunResult × DB :=
  if slug ∈ db.slugs then
    ({ lastID := some db.lastRowid, changes := 0 }, db)
  else
    ({ lastID := some db.nextSlugRowid, changes := 1 },
     { db with
        slugs := db.slugs ++ [slug],
        nextSlugRowid := db.nextSlugRowid + 1,
        lastRowid := db.nextSlugRowid })

/-- The inner `for (attempt = 0; attempt < 9; ...)` loop of `createSlug`:
draw, insert-or-ignore, and accept when `result.lastID !== undefined`. -/
def createSlugAttempts : DB → Nat → Nat → Option String × DB
  | db, _, 0 => (none, db)
  | db, len, n + 1 =>
    let s := drawSlug db len
    let r := dbRunInsertSlug s.2 s.1
    if r.1.lastID ≠ none then (some s.1, r.2)
    else createSlugAttempts r.2 len n

/-- The outer `for (length = 6; length < 12; length += 2)` loop. -/
def createSlugLengths : DB → List Nat → Option String × DB
  | db, [] => (none, db)
  | db, len :: rest =>
    match createSlugAttempts db len 9 with
    | (some s, db1) => (some s, db1)
    | (none, db1) => createSlugLengths db1 rest

/-- `createSlug()` from the source; `none` models the thrown
`token space exhausted` error. -/
def createSlug (db : DB) : Option String × DB :=
  createSlugLengths db [6, 8, 10]

/-- `getOrCreateUser(email)` from the source: allocate a slug,
`INSERT OR IGNORE` on the unique email, then select the row by email.
`none` models a thrown error (slug exhaustion, or reading `res.id` when
the select finds no row). -/
def getOrCreateUser (db : DB) (email : String) : Option (UserRow × DB) :=
  match createSlug db with
  | (none, _) => none
  | (some slug, db1) =>
    let db2 :=
      if db1.users.any (fun u => u.email = email) then db1
      else { db1 with
              users := db1.users ++ [{ id := db1.nextUserId, email := email, slug := slug }],
              nextUserId := db1.nextUserId + 1,
              lastRowid := db1.nextUserId }
    match db2.users.find? (fun u => u.email = email) with
    | none => none
    | some row => some ({ id := row.id, email := email, slug := row.slug }, db2)

/-- `deleteTimer(userId, slug)`: `DELETE FROM Timers WHERE userid = ? AND
slug = ?`. -/
def deleteTimer (db : DB) (userId : Nat) (slug : String) : DB :=
  { db with timers := db.timers.filter (fun t => ¬(t.userid = userId ∧ t.slug = slug)) }

/-- `deleteGroup(slug)`: `DELETE FROM Groups WHERE slug = ?` — the
predicate mentions no user id, and the function takes none. -/
def deleteGroup (db : DB) (slug : String) : DB :=
  { db with groups := db.groups.filter (fun g => ¬g.slug = slug) }

/-- The join rows of `getGroups`: Groups of the user, inner-joined with
TimerGroups on groupid and Timers on timerid.  The source query has no
ORDER BY; nested-loop order is the model's row order. -/
def getGroupsRows (db : DB) (userId : Nat) : List (GroupRow × TimerRow) :=
  (db.groups.filter (fun g => g.userid = userId)).flatMap (fun g =>
    (db.timerGroups.filter (fun tg => tg.groupid = g.id)).flatMap (fun tg =>
      (db.timers.filter (fun t => t.id = tg.timerid)).map (fun t => (g, t))))

/-- One step of the grouping loop of `getGroups`: create the group record
on its first row, then push each row's timer onto it. -/
def addGroupRow (acc : List GroupOut) (r : GroupRow × TimerRow) : List GroupOut :=
  if acc.any (fun gr => gr.id = r.1.id) then
    acc.map (fun gr => if gr.id = r.1.id then { gr with timers := gr.timers ++ [r.2] } else gr)
  else
    acc ++ [{ id := r.1.id, title := r.1.title, slug := r.1.slug,
              createdAt := r.1.createdAt, timers := [r.2] }]

/-- `getGroups(userId)` from the source.  The rows are grouped in a
record keyed by numeric group id, whose `Object.values` iterates in
ascending id order; the array is then sorted by `createdAt` (stable
sort).  Both orderings are modelled by stable insertion sorts. -/
def getGroups (db : DB) (userId : Nat) : List GroupOut :=
  let grouped := (getGroupsRows db userId).foldl addGroupRow []
  List.insertionSort (fun a b => a.createdAt ≤ b.createdAt)
    (List.insertionSort (fun a b => a.id ≤ b.id) grouped)

/-! ## The getTimersBySlug query

`getTimersBySlug` issues one compound SELECT of three arms joined by
UNION ALL, with an ORDER BY inside the first arm (before the first
UNION ALL) and one after the last.  SQLite only accepts ORDER BY on the
final arm of a compound SELECT, so preparing this statement fails.  The
call also supplies two bind values for three placeholders (an unbound
placeholder is NULL). -/

/-- One arm of a compound SELECT: whether the arm carries its own
ORDER BY clause, and how many `?` placeholders it contains. -/
structure SelectArm where
  hasOrderBy : Bool
  params : Nat
deriving DecidableEq

/-- The shape of the compound SELECT in `getTimersBySlug`: the Group arm
(with `ORDER BY tg.createdAt ASC` written before the first UNION ALL),
the Timer arm, and the User arm followed by the trailing ORDER BY. -/
def getTimersBySlugArms : List SelectArm :=
  [{ hasOrderBy := true, params := 1 },
   { hasOrderBy := false, params := 1 },
   { hasOrderBy := true, params := 1 }]

/-- The number of bind values the source passes (`slug, slug`). -/
def getTimersBySlugBindCount : Nat := 2

/-- SQLite's error for an ORDER BY on a non-final arm of a compound
SELECT. -/
def orderByCompoundError : String :=
  "ORDER BY clause should come after UNION ALL not before"

/-- SQLite statement preparation for a compound SELECT: rejected iff a
non-final arm carries an ORDER BY. -/
def prepareCompound (arms : List SelectArm) : Except String Unit :=
  if arms.dropLast.any (fun a => a.hasOrderBy) then
    Except.error orderByCompoundError
  else Except.ok ()

/-- The Group arm: member timers of groups with the slug, ordered by
membership creation time. -/
def groupArmRows (db : DB) (slug : String) : List TimerRow :=
  (List.insertionSort (fun a b => a.1 ≤ b.1)
    ((db.groups.filter (fun g => g.slug = slug)).flatMap (fun g =>
      (db.timerGroups.filter (fun tg => tg.groupid = g.id)).flatMap (fun tg =>
        (db.timers.filter (fun t => t.id = tg.timerid)).map
          (fun t => ((tg.createdAt : Int), t)))))).map Prod.snd

/-- The Timer arm: timers whose own slug matches. -/
def timerArmRows (db : DB) (slug : String) : List TimerRow :=
  db.timers.filter (fun t => t.slug = slug)

/-- The User arm: timers of users whose slug matches the third bind
value; that placeholder is unbound (NULL), and `u.slug = NULL` matches no
row. -/
def userArmRows (db : DB) : Option String → List TimerRow
  | none => []
  | some s =>
    List.insertionSort (fun a b => a.createdAt ≤ b.createdAt)
      ((db.users.filter (fun u => u.slug = s)).flatMap (fun u =>
        db.timers.filter (fun t => t.userid = u.id)))

/-- `getTimersBySlug(slug)` from the source: prepare the compound SELECT,
then run the three arms.  Preparation fails, so every call yields the
SQLite error. -/
def getTimersBySlug (db : DB) (slug : String) : Except String (List TimerRow) :=
  match prepareCompound getTimersBySlugArms with
  | Except.error e => Except.error e
  | Except.ok _ =>
    Except.ok (groupArmRows db slug ++ timerArmRows db slug ++ userArmRows db none)

/-- An empty database on a fresh connection, with an all-zero random
stream (every draw picks alphabet index 0). -/
def emptyDB : DB :=
  { slugs := [], users := [], timers := [], groups := [], timerGroups := [],
    nextSlugRowid := 1, nextUserId := 1, lastRowid := 0,
    rng := fun _ => 0, randPos := 0 }

/-- A timer owned by user 1, for concrete ownership scenarios. -/
def timerOfUser1 : TimerRow :=
  { id := 1, epoch := 0, title := "t", slug := "TTTTTT", secret := "uuid-1",
    userid := 1, format := 2, createdAt := 0 }

/-- A group owned by user 1, for concrete ownership scenarios. -/
def groupOfUser1 : GroupRow :=
  { id := 1, title := "g", slug := "GGGGGG", userid := 1, createdAt := 0 }

/-- A database holding one timer and one group, both owned by user 1. -/
def ownedDB : DB :=
  { emptyDB with timers := [timerOfUser1], groups := [groupOfUser1] }

/-- A database where user 1 owns one group containing one timer. -/
def memberDB : DB :=
  { emptyDB with
      groups := [groupOfUser1],
      timers := [timerOfUser1],
      timerGroups := [{ id := 1, groupid := 1, timerid := 1, userid := 1, createdAt := 0 }] }

/-- The group record `getGroups memberDB 1` materializes. -/
def memberGroupOut : GroupOut :=
  { id := 1, title := "g", slug := "GGGGGG", createdAt := 0, timers := [timerOfUser1] }

/-! ## Helper lemmas: closed forms of the bucketizer -/

theorem bucketTimes_lt60 (d : Int) (h0 : 0 ≤ d) (h : d < 60) : bucketTimes d = [] := by
  have eY : Int.fdiv d 31536000 = d / 31536000 := Int.fdiv_eq_ediv d (by norm_num)
  have qY : d / 31536000 = 0 := by omega
  have eW : Int.fdiv d 604800 = d / 604800 := Int.fdiv_eq_ediv d (by norm_num)
  have qW : d / 604800 = 0 := by omega
  have eD : Int.fdiv d 86400 = d / 86400 := Int.fdiv_eq_ediv d (by norm_num)
  have qD : d / 86400 = 0 := by omega
  have eM : Int.fdiv d 60 = d / 60 := Int.fdiv_eq_ediv d (by norm_num)
  have qM : d / 60 = 0 := by omega
  simp [bucketTimes, units, bucketGo, eY, qY, eW, qW, eD, qD, eM, qM]

theorem bucketTimes_minutes (d : Int) (h0 : 60 ≤ d) (h : d < 86400) :
    bucketTimes d = [{ name := "Minute", scale := d / 60 }] := by
  have eY : Int.fdiv d 31536000 = d / 31536000 := Int.fdiv_eq_ediv d (by norm_num)
  have qY : d / 31536000 = 0 := by omega
  have eW : Int.fdiv d 604800 = d / 604800 := Int.fdiv_eq_ediv d (by norm_num)
  have qW : d / 604800 = 0 := by omega
  have eD : Int.fdiv d 86400 = d / 86400 := Int.fdiv_eq_ediv d (by norm_num)
  have qD : d / 86400 = 0 := by omega
  have eM : Int.fdiv d 60 = d / 60 := Int.fdiv_eq_ediv d (by norm_num)
  have qM : 0 < d / 60 := by omega
  simp [bucketTimes, units, bucketGo, eY, qY, eW, qW, eD, qD, eM, qM]

theorem bucketTimes_days (d : Int) (h0 : 86400 ≤ d) (h : d < 604800) :
    bucketTimes d = [
      { name := "Day", scale := d / 86400 },
      { name := "Hour", scale := 0 },
      { name := "Minute", scale := d % 86400 / 60 }] := by
  have eY : Int.fdiv d 31536000 = d / 31536000 := Int.fdiv_eq_ediv d (by norm_num)
  have qY : d / 31536000 = 0 := by omega
  have eW : Int.fdiv d 604800 = d / 604800 := Int.fdiv_eq_ediv d (by norm_num)
  have qW : d / 604800 = 0 := by omega
  have eD : Int.fdiv d 86400 = d / 86400 := Int.fdiv_eq_ediv d (by norm_num)
  have qD : 0 < d / 86400 := by omega
  have sD : d - d / 86400 * 86400 = d % 86400 := by omega
  have eH : Int.fdiv (d % 86400) 86400 = d % 86400 / 86400 := Int.fdiv_eq_ediv _ (by norm_num)
  have qH : d % 86400 / 86400 = 0 := by omega
  have eM : Int.fdiv (d % 86400) 60 = d % 86400 / 60 := Int.fdiv_eq_ediv _ (by norm_num)
  simp [bucketTimes, units, bucketGo, eY, qY, eW, qW, eD, qD, sD, eH, qH, eM]

theorem bucketTimes_weeks (d : Int) (h0 : 604800 ≤ d) (h : d < 31536000) :
    bucketTimes d = [
      { name := "Week", scale := d / 604800 },
      { name := "Day", scale := d % 604800 / 86400 },
      { name := "Hour", scale := 0 },
      { name := "Minute", scale := d % 604800 % 86400 / 60 }] := by
  have eY : Int.fdiv d 31536000 = d / 31536000 := Int.fdiv_eq_ediv d (by norm_num)
  have qY : d / 31536000 = 0 := by omega
  have eW : Int.fdiv d 604800 = d / 604800 := Int.fdiv_eq_ediv d (by norm_num)
  have qW : 0 < d / 604800 := by omega
  have sW : d - d / 604800 * 604800 = d % 604800 := by omega
  have eD : Int.fdiv (d % 604800) 86400 = d % 604800 / 86400 := Int.fdiv_eq_ediv _ (by norm_num)
  have sD : d % 604800 - d % 604800 / 86400 * 86400 = d % 604800 % 86400 := by omega
  have eH : Int.fdiv (d % 604800 % 86400) 86400 = d % 604800 % 86400 / 86400 :=
    Int.fdiv_eq_ediv _ (by norm_num)
  have qH : d % 604800 % 86400 / 86400 = 0 := by omega
  have eM : Int.fdiv (d % 604800 % 86400) 60 = d % 604800 % 86400 / 60 :=
    Int.fdiv_eq_ediv _ (by norm_num)
  simp [bucketTimes, units, bucketGo, eY, qY, eW, qW, sW, eD, sD, eH, qH, eM]

theorem bucketTimes_years (d : Int) (h0 : 31536000 ≤ d) :
    bucketTimes d = [
      { name := "Year", scale := d / 31536000 },
      { name := "Week", scale := d % 31536000 / 604800 },
      { name := "Day", scale := d % 31536000 % 604800 / 86400 },
      { name := "Hour", scale := 0 },
      { name := "Minute", scale := d % 31536000 % 604800 % 86400 / 60 }] := by
  have eY : Int.fdiv d 31536000 = d / 31536000 := Int.fdiv_eq_ediv d (by norm_num)
  have qY : 0 < d / 31536000 := by omega
  have sY : d - d / 31536000 * 31536000 = d % 31536000 := by omega
  have eW : Int.fdiv (d % 31536000) 604800 = d % 31536000 / 604800 :=
    Int.fdiv_eq_ediv _ (by norm_num)
  have sW : d % 31536000 - d % 31536000 / 604800 * 604800 = d % 31536000 % 604800 := by omega
  have eD : Int.fdiv (d % 31536000 % 604800) 86400 = d % 31536000 % 604800 / 86400 :=
    Int.fdiv_eq_ediv _ (by norm_num)
  have sD : d % 31536000 % 604800 - d % 31536000 % 604800 / 86400 * 86400 =
      d % 31536000 % 604800 % 86400 := by omega
  have eH : Int.fdiv (d % 31536000 % 604800 % 86400) 86400 =
      d % 31536000 % 604800 % 86400 / 86400 := Int.fdiv_eq_ediv _ (by norm_num)
  have qH : d % 31536000 % 604800 % 86400 / 86400 = 0 := by omega
  have eM : Int.fdiv (d % 31536000 % 604800 % 86400) 60 =
      d % 31536000 % 604800 % 86400 / 60 := Int.fdiv_eq_ediv _ (by norm_num)
  simp [bucketTimes, units, bucketGo, eY, qY, sY, eW, sW, eD, sD, eH, qH, eM]

/-! ## Claim theorems -/

/-- C1: the claim says `getTimersBySlug` on a Group slug returns that
group's member timers.  In fact the compound SELECT carries an ORDER BY
on a non-final arm, so SQLite refuses to prepare it and every call fails
with an error instead of returning rows; moreover only two bind values
are supplied for its three placeholders. -/
theorem getTimersBySlug_always_errors :
    (∀ db slug, getTimersBySlug db slug = Except.error orderByCompoundError) ∧
    getTimersBySlugBindCount = 2 ∧
    (getTimersBySlugArms.map SelectArm.params).sum = 3 :=
  ⟨fun _ _ => rfl, rfl, by decide⟩

/-- C2: the claim says the Hour unit is 3600 seconds and that format
index 2 on a 3661-second-old timer renders "1 Hour, 1 Minute".  The
source stores the Hour scale as 24 × 3600 = 86400 (identical to Day), so
bucketizing 3661 yields a single 61-minute bucket and the Two Units
strategy renders "61 Minutes". -/
theorem hourUnit_is_day_sized_and_twoUnits_at_3661 :
    (units.getD 3 { name := "", scale := 0 }).name = "Hour" ∧
    (units.getD 3 { name := "", scale := 0 }).scale = 86400 ∧
    bucketTimes 3661 = [{ name := "Minute", scale := 61 }] ∧
    formatTime 0 2 3661 = "61 Minutes" := by
  refine ⟨rfl, rfl, by decide, by decide⟩

/-- C3: the claim says each single-scale formatter divides by its own
unit's seconds-per-unit constant and that index 5 is "Hours" rendering
"1 Hour" on a 3661-second-old timer.  In the source, index 5 is "Days"
(Hours sits at index 6), and `makeScaleFormatter` always resolves the
"Year" scale regardless of its parameter, so index 5 renders "0 Days",
index 6 renders "0 Hours", and even a duration of a full year of seconds
renders "1 Minute" under the Minutes strategy. -/
theorem scaleFormatter_registry_at_3661 :
    (formatters.getD 5 deadFormatter).1 = "Days" ∧
    (formatters.getD 6 deadFormatter).1 = "Hours" ∧
    formatTime 0 5 3661 = "0 Days" ∧
    formatTime 0 6 3661 = "0 Hours" ∧
    makeScaleFormatter "Hour" 0 3661 = "0 Hours" ∧
    makeScaleFormatter "Minute" 0 31536000 = "1 Minute" := by
  refine ⟨rfl, rfl, by decide, by decide, by decide, by decide⟩

/-- C4: the claim says both `deleteTimer` and `deleteGroup` filter by
owning-user id so a non-owner call affects zero rows.  `deleteTimer`
does (user 2 deleting user 1's timer by slug is a no-op), but
`deleteGroup` filters by slug alone — it does not even take a user id —
so the group owned by user 1 is deleted no matter who calls. -/
theorem deleteGroup_ignores_ownership :
    (deleteTimer ownedDB 2 "TTTTTT").timers = [timerOfUser1] ∧
    (deleteGroup ownedDB "GGGGGG").groups = [] := by
  refine ⟨by decide, by decide⟩

/-- C5: the claim says sequential `createSlug` calls return pairwise
distinct slugs.  The collision check `result.lastID !== undefined` is
vacuous — the driver always reports a numeric `lastID`, even when
`INSERT OR IGNORE` ignored a duplicate — so when the random stream
repeats a draw the duplicate is returned: two calls on a fresh database
with an all-zero stream both return "AAAAAA", while the Slugs table
shows the second insert was ignored. -/
theorem createSlug_returns_duplicate :
    (createSlug emptyDB).1 = some "AAAAAA" ∧
    (createSlug (createSlug emptyDB).2).1 = some "AAAAAA" ∧
    ((createSlug (createSlug emptyDB).2).2).slugs = ["AAAAAA"] := by
  refine ⟨by decide, by decide, by decide⟩

/-- C6: for every duration d ≥ 0 the buckets of `bucketTimes d` satisfy
Σ(count_i × unitSeconds_i) + r = d for a remainder 0 ≤ r < 60, where
unitSeconds is the per-unit scale the bucketizer itself uses. -/
theorem bucketTimes_sum_invariant (d : Int) (hd : 0 ≤ d) :
    ∃ r : Int, 0 ≤ r ∧ r < 60 ∧ sumBuckets (bucketTimes d) + r = d := by
  have uY : unitSeconds "Year" = 31536000 := by decide
  have uW : unitSeconds "Week" = 604800 := by decide
  have uD : unitSeconds "Day" = 86400 := by decide
  have uH : unitSeconds "Hour" = 86400 := by decide
  have uM : unitSeconds "Minute" = 60 := by decide
  rcases lt_or_le d 60 with h1 | h1
  · rw [bucketTimes_lt60 d hd h1]
    exact ⟨d, hd, h1, by simp [sumBuckets]⟩
  rcases lt_or_le d 86400 with h2 | h2
  · rw [bucketTimes_minutes d h1 h2]
    refine ⟨d % 60, by omega, by omega, ?_⟩
    simp [sumBuckets, uM]
    omega
  rcases lt_or_le d 604800 with h3 | h3
  · rw [bucketTimes_days d h2 h3]
    refine ⟨d % 86400 % 60, by omega, by omega, ?_⟩
    simp [sumBuckets, uD, uH, uM]
    omega
  rcases lt_or_le d 31536000 with h4 | h4
  · rw [bucketTimes_weeks d h3 h4]
    refine ⟨d % 604800 % 86400 % 60, by omega, by omega, ?_⟩
    simp [sumBuckets, uW, uD, uH, uM]
    omega
  · rw [bucketTimes_years d h4]
    refine ⟨d % 31536000 % 604800 % 86400 % 60, by omega, by omega, ?_⟩
    simp [sumBuckets, uY, uW, uD, uH, uM]
    omega

/-- Witness for C6 at d = 3661. -/
theorem bucketTimes_sum_invariant_witness :
    (0 : Int) ≤ 3661 ∧
    ∃ r : Int, 0 ≤ r ∧ r < 60 ∧ sumBuckets (bucketTimes 3661) + r = 3661 :=
  ⟨by norm_num, bucketTimes_sum_invariant 3661 (by norm_num)⟩

/-- C7: for every duration d ≥ 0, `bucketTimes d` is empty exactly when
d is below one minute; otherwise its head count is non-zero and its unit
names are a contiguous suffix of the unit table down to Minute (zero
buckets included after the first non-zero one, largest unit first). -/
theorem bucketTimes_shape_invariant (d : Int) (hd : 0 ≤ d) :
    (bucketTimes d = [] ↔ d < 60) ∧
    0 < ((bucketTimes d).headD { name := "", scale := 1 }).scale ∧
    ∃ k, (bucketTimes d).map Scale.name = (units.map Scale.name).drop k := by
  rcases lt_or_le d 60 with h1 | h1
  · rw [bucketTimes_lt60 d hd h1]
    exact ⟨by simp [h1], by norm_num, 5, by simp [units]⟩
  rcases lt_or_le d 86400 with h2 | h2
  · rw [bucketTimes_minutes d h1 h2]
    refine ⟨by simp; omega, by simp; omega, 4, by simp [units]⟩
  rcases lt_or_le d 604800 with h3 | h3
  · rw [bucketTimes_days d h2 h3]
    refine ⟨by simp; omega, by simp; omega, 2, by simp [units]⟩
  rcases lt_or_le d 31536000 with h4 | h4
  · rw [bucketTimes_weeks d h3 h4]
    refine ⟨by simp; omega, by simp; omega, 1, by simp [units]⟩
  · rw [bucketTimes_years d h4]
    refine ⟨by simp; omega, by simp; omega, 0, by simp [units]⟩

/-- Witness for C7 at d = 90061 (1 day, 1 hour, 1 minute, 1 second). -/
theorem bucketTimes_shape_invariant_witness :
    (0 : Int) ≤ 90061 ∧
    ((bucketTimes 90061 = [] ↔ (90061 : Int) < 60) ∧
     0 < ((bucketTimes 90061).headD { name := "", scale := 1 }).scale ∧
     ∃ k, (bucketTimes 90061).map Scale.name = (units.map Scale.name).drop k) :=
  ⟨by norm_num, bucketTimes_shape_invariant 90061 (by norm_num)⟩

/-- C9: for every stored format value that is not a valid registry index
(negative or at least the registry length 8), `formatTime` falls back to
the strategy at index 1, which is named "One Unit". -/
theorem formatTime_fallback_one_unit (epoch format now : Int)
    (h : format < 0 ∨ 8 ≤ format) :
    formatTime epoch format now = formatTime epoch 1 now ∧
    (formatters.getD 1 deadFormatter).1 = "One Unit" := by
  refine ⟨?_, rfl⟩
  unfold formatTime
  rcases h with h | h
  · rw [if_neg (by omega)]
    rfl
  · have hn : formatters.get? format.toNat = none := by
      rw [List.get?_eq_none]
      rw [show formatters.length = 8 from rfl]
      omega
    rw [if_pos (by omega), hn]
    rfl

/-- Witness for C9 at format = 99. -/
theorem formatTime_fallback_one_unit_witness :
    ((99 : Int) < 0 ∨ (8 : Int) ≤ 99) ∧
    (formatTime 0 99 3661 = formatTime 0 1 3661 ∧
     (formatters.getD 1 deadFormatter).1 = "One Unit") :=
  ⟨Or.inr (by norm_num), formatTime_fallback_one_unit 0 99 3661 (Or.inr (by norm_num))⟩

/-! ## Helper lemmas: list bookkeeping for the store proofs -/

theorem find?_eq_head_filter {α : Type} (p : α → Bool) (l : List α) :
    l.find? p = (l.filter p).head? := by
  induction l with
  | nil => rfl
  | cons a l ih =>
    cases h : p a with
    | true => rw [List.find?_cons_of_pos _ h, List.filter_cons_of_pos h]; rfl
    | false =>
      rw [List.find?_cons_of_neg _ (by simp [h]), List.filter_cons_of_neg (by simp [h]), ih]

theorem users_filter_single (l : List UserRow) (e : String)
    (hnd : (l.map UserRow.email).Nodup) (u : UserRow) (hu : u ∈ l) (he : u.email = e) :
    l.filter (fun x => x.email = e) = [u] := by
  induction l with
  | nil => cases hu
  | cons a l ih =>
    rw [List.map_cons, List.nodup_cons] at hnd
    rcases List.mem_cons.mp hu with h | hu2
    · subst h
      rw [List.filter_cons_of_pos (by simp [he])]
      have hnil : List.filter (fun x => x.email = e) l = [] := by
        rw [List.filter_eq_nil_iff]
        intro x hx
        simp only [decide_eq_true_eq]
        intro hxe
        exact hnd.1 (List.mem_map.mpr ⟨x, hx, hxe.trans he.symm⟩)
      rw [hnil]
    · have hane : ¬a.email = e := by
        intro hae
        exact hnd.1 (List.mem_map.mpr ⟨u, hu2, he.trans hae.symm⟩)
      rw [List.filter_cons_of_neg (by simp [hane])]
      exact ih hnd.2 hu2

theorem dbRunInsertSlug_lastID (db : DB) (s : String) :
    (dbRunInsertSlug db s).1.lastID ≠ none := by
  unfold dbRunInsertSlug
  split <;> simp

theorem dbRunInsertSlug_users (db : DB) (s : String) :
    (dbRunInsertSlug db s).2.users = db.users := by
  unfold dbRunInsertSlug
  split <;> rfl

theorem dbRunInsertSlug_nextUserId (db : DB) (s : String) :
    (dbRunInsertSlug db s).2.nextUserId = db.nextUserId := by
  unfold dbRunInsertSlug
  split <;> rfl

theorem createSlugAttempts_succ (db : DB) (len n : Nat) :
    createSlugAttempts db len (n + 1) =
      (some (drawSlug db len).1, (dbRunInsertSlug (drawSlug db len).2 (drawSlug db len).1).2) := by
  unfold createSlugAttempts
  rw [if_pos (dbRunInsertSlug_lastID _ _)]

theorem createSlug_eq (db : DB) :
    createSlug db =
      (some (drawSlug db 6).1, (dbRunInsertSlug (drawSlug db 6).2 (drawSlug db 6).1).2) := by
  unfold createSlug createSlugLengths
  rw [show (9 : Nat) = 8 + 1 from rfl, createSlugAttempts_succ]

theorem createSlug_spec (db : DB) :
    ∃ s db1, createSlug db = (some s, db1) ∧
      db1.users = db.users ∧ db1.nextUserId = db.nextUserId :=
  ⟨(drawSlug db 6).1, (dbRunInsertSlug (drawSlug db 6).2 (drawSlug db 6).1).2,
    createSlug_eq db, by rw [dbRunInsertSlug_users]; rfl,
    by rw [dbRunInsertSlug_nextUserId]; rfl⟩

/-- C8: `getOrCreateUser` is idempotent — two calls with the same email
return identical `User` records, the table keeps exactly one row for that
email, and the second call returns that existing row with the Users table
unchanged.  The hypothesis is the schema's UNIQUE constraint on email. -/
theorem getOrCreateUser_idempotent (db : DB) (email : String)
    (hnd : (db.users.map UserRow.email).Nodup) :
    ∃ u1 db1 u2 db2,
      getOrCreateUser db email = some (u1, db1) ∧
      getOrCreateUser db1 email = some (u2, db2) ∧
      u1 = u2 ∧
      db1.users.filter (fun u => u.email = email) = [u1] ∧
      db2.users = db1.users := by
  obtain ⟨s, dbA, hcs, hA, _⟩ := createSlug_spec db
  by_cases hex : db.users.any (fun u => u.email = email) = true
  · obtain ⟨u, hu, hue⟩ := List.any_eq_true.mp hex
    have hue' : u.email = email := by simpa using hue
    have hfil : db.users.filter (fun x => x.email = email) = [u] :=
      users_filter_single db.users email hnd u hu hue'
    have hfind : db.users.find? (fun x => x.email = email) = some u := by
      rw [find?_eq_head_filter, hfil]; rfl
    have hu1 : ({ id := u.id, email := email, slug := u.slug } : UserRow) = u := by
      obtain ⟨ui, ue, us⟩ := u
      simp only at hue'
      rw [hue']
    obtain ⟨s2, dbB, hcs2, hB, _⟩ := createSlug_spec dbA
    refine ⟨{ id := u.id, email := email, slug := u.slug }, dbA,
            { id := u.id, email := email, slug := u.slug }, dbB, ?_, ?_, rfl, ?_, ?_⟩
    · simp only [getOrCreateUser, hcs, hA, hex, if_true, hfind]
    · simp only [getOrCreateUser, hcs2, hB, hA, hex, if_true, hfind]
    · rw [hA, hfil, hu1]
    · exact hB
  · have hexf : db.users.any (fun u => u.email = email) = false := by
      simpa using hex
    have hnil : db.users.filter (fun x => x.email = email) = [] := by
      rw [List.filter_eq_nil_iff]
      intro a ha
      simp only [decide_eq_true_eq]
      intro hae
      exact hex (List.any_eq_true.mpr ⟨a, ha, by simp [hae]⟩)
    have hfindn : db.users.find? (fun x => x.email = email) = none := by
      rw [find?_eq_head_filter, hnil]; rfl
    obtain ⟨s2, dbB, hcs2, hB, _⟩ := createSlug_spec
      { dbA with
          users := dbA.users ++ [{ id := dbA.nextUserId, email := email, slug := s }],
          nextUserId := dbA.nextUserId + 1,
          lastRowid := dbA.nextUserId }
    refine ⟨{ id := dbA.nextUserId, email := email, slug := s },
            { dbA with
                users := dbA.users ++ [{ id := dbA.nextUserId, email := email, slug := s }],
                nextUserId := dbA.nextUserId + 1,
                lastRowid := dbA.nextUserId },
            { id := dbA.nextUserId, email := email, slug := s }, dbB, ?_, ?_, rfl, ?_, ?_⟩
    · simp only [getOrCreateUser, hcs, hA, hexf, Bool.false_eq_true, if_false,
        List.find?_append, hfindn, Option.none_or]
      rw [List.find?_cons_of_pos _ (by simp)]
    · have hBu : dbB.users = dbA.users ++ [{ id := dbA.nextUserId, email := email, slug := s }] :=
        hB
      have hcond : (dbB.users.any fun u => u.email = email) = true := by
        rw [hBu, List.any_append, hA, hexf]
        simp
      simp only [getOrCreateUser, hcs2]
      rw [if_pos hcond, hBu, hA, List.find?_append, hfindn, Option.none_or]
      rw [List.find?_cons_of_pos _ (by simp)]
    · show (dbA.users ++ [({ id := dbA.nextUserId, email := email, slug := s } : UserRow)]).filter
        (fun u => u.email = email) =
        [({ id := dbA.nextUserId, email := email, slug := s } : UserRow)]
      rw [hA, List.filter_append, hnil,
        List.filter_cons_of_pos (by simp)]
      rfl
    · exact hB

/-- Witness for C8 on the empty database. -/
theorem getOrCreateUser_idempotent_witness :
    ((emptyDB.users.map UserRow.email).Nodup) ∧
    (∃ u1 db1 u2 db2,
      getOrCreateUser emptyDB "a@b.c" = some (u1, db1) ∧
      getOrCreateUser db1 "a@b.c" = some (u2, db2) ∧
      u1 = u2 ∧
      db1.users.filter (fun u => u.email = "a@b.c") = [u1] ∧
      db2.users = db1.users) :=
  ⟨by decide, getOrCreateUser_idempotent emptyDB "a@b.c" (by decide)⟩

theorem addGroupRow_ids (acc : List GroupOut) (r : GroupRow × TimerRow) (g : GroupOut)
    (hg : g ∈ addGroupRow acc r) : g.id ∈ acc.map GroupOut.id ∨ g.id = r.1.id := by
  unfold addGroupRow at hg
  by_cases h : acc.any (fun gr => gr.id = r.1.id) = true
  · rw [if_pos h] at hg
    obtain ⟨gr, hgr, hmap⟩ := List.mem_map.mp hg
    by_cases hid : gr.id = r.1.id
    · rw [if_pos hid] at hmap
      left
      exact List.mem_map.mpr ⟨gr, hgr, by rw [← hmap]⟩
    · rw [if_neg hid] at hmap
      left
      exact List.mem_map.mpr ⟨gr, hgr, by rw [hmap]⟩
  · rw [if_neg h] at hg
    rcases List.mem_append.mp hg with h2 | h2
    · left
      exact List.mem_map.mpr ⟨g, h2, rfl⟩
    · right
      rw [List.mem_singleton.mp h2]

theorem foldl_addGroupRow_ids (rows : List (GroupRow × TimerRow)) :
    ∀ (acc : List GroupOut) (g : GroupOut), g ∈ rows.foldl addGroupRow acc →
      g.id ∈ acc.map GroupOut.id ∨ ∃ r ∈ rows, g.id = r.1.id := by
  induction rows with
  | nil =>
    intro acc g hg
    left
    exact List.mem_map.mpr ⟨g, hg, rfl⟩
  | cons r rs ih =>
    intro acc g hg
    rw [List.foldl_cons] at hg
    rcases ih (addGroupRow acc r) g hg with h | ⟨r2, hr2, he⟩
    · obtain ⟨g2, hg2, hge⟩ := List.mem_map.mp h
      rcases addGroupRow_ids acc r g2 hg2 with h2 | h2
      · left
        rw [← hge]
        exact h2
      · right
        exact ⟨r, List.mem_cons_self r rs, by rw [← hge, h2]⟩
    · right
      exact ⟨r2, List.mem_cons_of_mem r hr2, he⟩

/-- C10: every group `getGroups` returns has at least one membership row
joining an existing timer — a group with zero member timers never appears
in the result, because the source query inner-joins Groups with
TimerGroups and Timers. -/
theorem getGroups_only_groups_with_members (db : DB) (uid : Nat) (g : GroupOut)
    (hg : g ∈ getGroups db uid) :
    ∃ tg ∈ db.timerGroups, tg.groupid = g.id ∧ ∃ t ∈ db.timers, t.id = tg.timerid := by
  unfold getGroups at hg
  rw [List.mem_insertionSort, List.mem_insertionSort] at hg
  rcases foldl_addGroupRow_ids (getGroupsRows db uid) [] g hg with h | ⟨r, hr, he⟩
  · simp at h
  · unfold getGroupsRows at hr
    obtain ⟨g2, _, hr2⟩ := List.mem_flatMap.mp hr
    obtain ⟨tg, htg, hr3⟩ := List.mem_flatMap.mp hr2
    obtain ⟨t, ht, hrt⟩ := List.mem_map.mp hr3
    have htg2 := List.mem_filter.mp htg
    have ht2 := List.mem_filter.mp ht
    refine ⟨tg, htg2.1, ?_, t, ht2.1, by simpa using ht2.2⟩
    have hgid : tg.groupid = g2.id := by simpa using htg2.2
    have : r.1 = g2 := by rw [← hrt]
    rw [he, this]
    exact hgid

/-- Witness for C10 on a database where user 1 owns one group holding one
timer. -/
theorem getGroups_only_groups_with_members_witness :
    memberGroupOut ∈ getGroups memberDB 1 ∧
    ∃ tg ∈ memberDB.timerGroups, tg.groupid = memberGroupOut.id ∧
      ∃ t ∈ memberDB.timers, t.id = tg.timerid :=
  ⟨by decide, getGroups_only_groups_with_members memberDB 1 memberGroupOut (by decide)⟩
